import Mathlib

/-!
Verification development for the ParallelLives node-generation pipeline
(`backend/src/controllers/nodeController.ts` and the services it calls).

Modelling conventions:
* JavaScript numbers are exact rationals (`ℚ`); `Math.round` is floor of
  `x + 1/2` (JS rounds half toward positive infinity).
* JS truthiness on numeric fields (`x || d` falls back both when `x` is
  `undefined` and when `x` is `0`) is `jsNumOr`/`jsNumOrD`; on string
  fields (falsy iff missing or empty) it is `jsStrOr`/`strTruthy`.
* `Math.random()` draws are explicit parameters (`OccupationRand`,
  `randCreativity`, `randAdventure`), each standing for one `*10`-scaled
  draw in `[0, 10)`.
* External collaborators (Gemini classifier and narrative generator,
  Teleport city scores, climate service, Unsplash) are oracles passed in
  `Collaborators`; `none` models the call throwing, mirroring the
  try/catch structure of `createNodeInternal`.
* Persistence is modelled by the observable document states: the
  placeholder row written by `node.save()`, the final
  `findByIdAndUpdate` payload, and whether `updateSessionStats` ran
  (`CreateOutcome.statsUpdated`).  The placeholder literals for
  metrics/narrative/cover (overwritten on success, retained on error,
  inspected by no claim) are modelled by `none` in the respective
  `Option` fields of `NodeDoc`.
* String helpers (`charsContain` …) operate on `String.data` so that
  they are structurally recursive; `jsToLower` models
  `String.prototype.toLowerCase`, `containsSub` models
  `String.prototype.includes`.
-/

/-- JS `Math.round`: rounds to the nearest integer, half toward +∞. -/
def jsRound (x : ℚ) : ℤ := ⌊x + 1/2⌋

/-- JS `Math.round(x * 10) / 10`: rounding to one decimal place, as used by
`blendWithParent` and `weightedAverage` in `nodeController.ts`. -/
def round1 (x : ℚ) : ℚ := (jsRound (x * 10) : ℚ) / 10

/-- JS `x || d` for an optional numeric field: the default is used when the
field is absent (`undefined`) or equal to `0` (both are falsy). -/
def jsNumOr (x : Option ℚ) (d : ℚ) : ℚ :=
  match x with
  | some v => if v = 0 then d else v
  | none => d

/-- JS `v || d` for a numeric value that is present: the default is used
exactly when the value is `0`. -/
def jsNumOrD (v d : ℚ) : ℚ := if v = 0 then d else v

/-- JS truthiness of an optional string: falsy iff absent or empty. -/
def strTruthy : Option String → Bool
  | some s => s != ""
  | none => false

/-- JS `x || d` for an optional string field. -/
def jsStrOr (x : Option String) (d : String) : String :=
  if strTruthy x then x.getD "" else d

/-- Whether the character list starts with the given pattern. -/
def charsStartWith : List Char → List Char → Bool
  | [], _ => true
  | _ :: _, [] => false
  | p :: ps, c :: cs => p == c && charsStartWith ps cs

/-- Whether the character list contains the pattern as a contiguous run. -/
def charsContain (pat : List Char) : List Char → Bool
  | [] => pat.isEmpty
  | c :: cs => charsStartWith pat (c :: cs) || charsContain pat cs

/-- JS `s.includes(pat)`. -/
def containsSub (s pat : String) : Bool := charsContain pat.data s.data

/-- JS `s.toLowerCase()` (ASCII-adequate for the occupation keys used). -/
def jsToLower (s : String) : String := String.mk (s.data.map Char.toLower)

/-- `blendWithParent` from `nodeController.ts` (lines 636-639): blends the
freshly computed value with the parent value, giving weight `newWeight`
to the new value, and rounds the result to one decimal. -/
def blendWithParent (newValue parentValue newWeight : ℚ) : ℚ :=
  round1 (newValue * newWeight + parentValue * (1 - newWeight))

/-- `weightedAverage` from `nodeController.ts` (lines 489-493): the weighted
mean of the value/weight pairs, rounded to one decimal. -/
def weightedAverage (values : List (ℚ × ℚ)) : ℚ :=
  round1 ((values.foldl (fun acc vw => acc + vw.1 * vw.2) 0) /
          (values.foldl (fun acc vw => acc + vw.2) 0))

/-! ### Data model -/

structure Coordinates where
  latitude : ℚ
  longitude : ℚ
deriving DecidableEq

structure Climate where
  avgTempC : ℚ
  avgTempF : ℚ
  rainDays : ℚ
  sunnyDays : ℚ
  season : String
  comfortIndex : ℚ
deriving DecidableEq

/-- Teleport city scores as consumed by the controller.  Fields are
`Option`s because the controller accesses every one of them through a
defensive `cityScores.X || 5` fallback. -/
structure TeleportScores where
  overall : Option ℚ
  costOfLiving : Option ℚ
  safety : Option ℚ
  housing : Option ℚ
  healthcare : Option ℚ
  education : Option ℚ
  leisure : Option ℚ
  tolerance : Option ℚ
  commute : Option ℚ
  business : Option ℚ
  economy : Option ℚ
deriving DecidableEq

structure CityMetrics where
  name : String
  country : String
  coordinates : Option Coordinates
  teleportScores : Option TeleportScores
  climate : Option Climate
  population : Option ℚ
  timezone : Option String
deriving DecidableEq

/-- The city sub-document of a stored node's metrics, as read back through
`parentNode?.metrics?.city?.name` / `?.country`. -/
structure StoredCity where
  name : Option String
  country : Option String
deriving DecidableEq

/-- The occupation sub-document of a stored node's metrics. -/
structure StoredOccupation where
  name : Option String
deriving DecidableEq

/-- A stored node's metrics, as the pipeline reads them back from a parent
node (every access is optional-chained, hence the `Option` fields). -/
structure NodeMetrics where
  city : Option StoredCity
  occupation : Option StoredOccupation
  qualityOfLifeIndex : Option ℚ
  happinessScore : Option ℚ
  workLifeBalance : Option ℚ
  healthIndex : Option ℚ
  socialIndex : Option ℚ
  creativityIndex : Option ℚ
  adventureIndex : Option ℚ
deriving DecidableEq

structure OccupationMetrics where
  name : String
  category : String
  demandIndex : ℚ
  educationTypical : String
  skillsRequired : List String
  tasksTypical : List String
  growthOutlook : String
  automationRisk : String
  workLifeBalance : ℚ
  stressLevel : ℚ
deriving DecidableEq

structure FinancialMetrics where
  salaryLowUSD : ℤ
  salaryHighUSD : ℤ
  salaryMedianUSD : ℤ
  colIndex : ℚ
  currency : String
  savingsPotential : ℚ
  retirementAge : ℕ
  financialSecurity : String
deriving DecidableEq

/-- The seven composite indices returned by `calculateQualityMetrics`. -/
structure QualityMetrics where
  qualityOfLifeIndex : ℚ
  happinessScore : ℚ
  workLifeBalance : ℚ
  healthIndex : ℚ
  socialIndex : ℚ
  creativityIndex : ℚ
  adventureIndex : ℚ
deriving DecidableEq

structure LocationChange where
  city : Option String
  country : Option String
deriving DecidableEq

/-- `IChoice` from `models/LifeNode.ts`: a sparse record of change
dimensions. -/
structure Choice where
  careerChange : Option String
  locationChange : Option LocationChange
  educationChange : Option String
  lifestyleChange : Option String
  personalityChange : Option String
  relationshipChange : Option String
deriving DecidableEq

/-- The JSON object produced by the Gemini choice classifier, as consumed
by `parseChoiceResponse` in `services/gemini.ts`: it carries only the four
dimensions named in the normalization prompt.  `none` models JSON `null`
or a missing key. -/
structure ParsedChoice where
  careerChange : Option String
  locationChange : Option LocationChange
  educationChange : Option String
  lifestyleChange : Option String
deriving DecidableEq

/-- The session's `baseContext` (fields the pipeline reads). -/
structure BaseContext where
  age : Option ℚ
  country : Option String
  currentCareer : Option String
  currentCity : Option String
  currentEducation : Option String
deriving DecidableEq

/-- The already-persisted parent node, as the pipeline reads it. -/
structure ParentNode where
  depth : ℕ
  metrics : Option NodeMetrics
deriving DecidableEq

structure Chapter where
  title : String
  text : String
  yearRange : String
  highlights : List String
deriving DecidableEq

structure Milestone where
  year : ℕ
  event : String
  significance : String
  category : String
deriving DecidableEq

structure Narrative where
  summary : String
  chapters : List Chapter
  milestones : List Milestone
  tone : String
  confidenceScore : ℚ
  disclaimers : List String
deriving DecidableEq

structure CoverImage where
  url : String
  credit : String
  description : String
deriving DecidableEq

structure FullMetrics where
  city : CityMetrics
  occupation : OccupationMetrics
  finances : FinancialMetrics
  quality : QualityMetrics
deriving DecidableEq

inductive Status where
  | generating
  | completed
  | error
deriving DecidableEq

/-- The observable state of a persisted node document.  `none` in
`metrics`/`narrative`/`coverPhoto` stands for the placeholder payload
written at creation (overwritten on success, retained on error). -/
structure NodeDoc where
  depth : ℕ
  order : ℕ
  choice : Choice
  status : Status
  errorMessage : Option String
  metrics : Option FullMetrics
  narrative : Option Narrative
  coverPhoto : Option CoverImage
  processingTime : Option ℕ
deriving DecidableEq

/-- The `Math.random()` draws consumed by `getOccupationMetrics`, each
already scaled by 10 (so a real draw lies in `[0, 10)`). -/
structure OccupationRand where
  demandIndex : ℚ
  workLifeBalance : ℚ
  stressLevel : ℚ
deriving DecidableEq

/-- Outcomes of the external collaborator calls made by one pipeline run;
`none` models the call throwing (the controller catches and falls back,
except for the choice classifier whose failure propagates). -/
structure Collaborators where
  classifierResult : Option ParsedChoice
  cityResult : Option CityMetrics
  climateResult : Option (Coordinates × Climate)
  narrativeResult : Option Narrative
  imageResult : Option CoverImage
  occRand : OccupationRand
  randCreativity : ℚ
  randAdventure : ℚ
deriving DecidableEq

/-- Parameters of `createNodeInternal`. -/
structure InternalParams where
  parentNode : Option ParentNode
  depth : ℕ
  order : ℕ
  choice : Choice
  baseContext : Option BaseContext
deriving DecidableEq

/-- Result of `createNodeInternal`: the node document it leaves behind,
and — when the pipeline threw — the rethrown error message. -/
inductive PipelineResult where
  | ok (node : NodeDoc)
  | failed (node : NodeDoc) (msg : String)
deriving DecidableEq

/-- The node document a pipeline run leaves behind, in either case. -/
def PipelineResult.node : PipelineResult → NodeDoc
  | .ok n => n
  | .failed n _ => n

/-- HTTP-level outcome of `createNode`. -/
inductive ApiOutcome where
  | created
  | validationError (msg : String)
  | serverError
deriving DecidableEq

/-- Observable outcome of one `createNode` request: the response, the node
document persisted by the request (if any), and whether
`updateSessionStats` was reached. -/
structure CreateOutcome where
  response : ApiOutcome
  node : Option NodeDoc
  statsUpdated : Bool
deriving DecidableEq

/-! ### Occupation helpers (`nodeController.ts` lines 512-588) -/

/-- `getOccupationCategory`: first matching key of the category map wins. -/
def getOccupationCategory (occupation : String) : String :=
  let lower := jsToLower occupation
  if containsSub lower "software" then "Technology"
  else if containsSub lower "doctor" then "Healthcare"
  else if containsSub lower "teacher" then "Education"
  else if containsSub lower "artist" then "Arts & Entertainment"
  else if containsSub lower "engineer" then "Engineering"
  else if containsSub lower "lawyer" then "Legal"
  else if containsSub lower "writer" then "Arts & Entertainment"
  else if containsSub lower "musician" then "Arts & Entertainment"
  else "Professional"

/-- `getTypicalEducation`. -/
def getTypicalEducation (occupation : String) : String :=
  let lower := jsToLower occupation
  if containsSub lower "doctor" then "Doctor\x27s degree"
  else if containsSub lower "lawyer" then "Professional degree"
  else if containsSub lower "engineer" then "Bachelor\x27s degree"
  else if containsSub lower "teacher" then "Bachelor\x27s degree"
  else if containsSub lower "artist" then "Some college"
  else if containsSub lower "musician" then "Some college"
  else if containsSub lower "software" then "Bachelor\x27s degree"
  else "Bachelor\x27s degree"

/-- `getGrowthOutlook`. -/
def getGrowthOutlook (occupation : String) : String :=
  if containsSub (jsToLower occupation) "software" ||
     containsSub (jsToLower occupation) "engineer" then "rapid" else "stable"

/-- `getAutomationRisk`. -/
def getAutomationRisk (occupation : String) : String :=
  if containsSub (jsToLower occupation) "artist" ||
     containsSub (jsToLower occupation) "musician" then "low" else "medium"

/-- `getBaseSalary`: first matching key of the salary map wins; `50000`
for occupations matching no key. -/
def getBaseSalary (occupation : String) : ℚ :=
  let lower := jsToLower occupation
  if containsSub lower "software" then 85000
  else if containsSub lower "doctor" then 200000
  else if containsSub lower "engineer" then 75000
  else if containsSub lower "teacher" then 45000
  else if containsSub lower "artist" then 35000
  else if containsSub lower "musician" then 40000
  else if containsSub lower "lawyer" then 120000
  else 50000

/-- `getOccupationMetrics` (lines 397-412): structured data with three
`Math.random() * 10` draws. -/
def getOccupationMetrics (occupationName : String) (r : OccupationRand) :
    OccupationMetrics :=
  { name := occupationName
    category := getOccupationCategory occupationName
    demandIndex := r.demandIndex
    educationTypical := getTypicalEducation occupationName
    skillsRequired :=
      ["Critical Thinking", "Problem Solving", "Communication", "Teamwork"]
    tasksTypical :=
      ["Analyze requirements", "Develop solutions", "Collaborate with teams",
       "Document processes"]
    growthOutlook := getGrowthOutlook occupationName
    automationRisk := getAutomationRisk occupationName
    workLifeBalance := r.workLifeBalance
    stressLevel := r.stressLevel }

/-- `calculateFinancialMetrics` (lines 414-428). -/
def calculateFinancialMetrics (occupationMetrics : OccupationMetrics)
    (cityMetrics : CityMetrics) : FinancialMetrics :=
  { salaryLowUSD :=
      jsRound (getBaseSalary occupationMetrics.name * 0.8 *
        (jsNumOr (cityMetrics.teleportScores.bind TeleportScores.costOfLiving) 5 / 5))
    salaryHighUSD :=
      jsRound (getBaseSalary occupationMetrics.name * 1.5 *
        (jsNumOr (cityMetrics.teleportScores.bind TeleportScores.costOfLiving) 5 / 5))
    salaryMedianUSD :=
      jsRound (getBaseSalary occupationMetrics.name *
        (jsNumOr (cityMetrics.teleportScores.bind TeleportScores.costOfLiving) 5 / 5))
    colIndex := jsNumOr (cityMetrics.teleportScores.bind TeleportScores.costOfLiving) 5
    currency := "USD"
    savingsPotential :=
      max 0 (10 - jsNumOr (cityMetrics.teleportScores.bind TeleportScores.costOfLiving) 5)
    retirementAge := 65
    financialSecurity :=
      if jsNumOr (cityMetrics.teleportScores.bind TeleportScores.costOfLiving) 5 < 6
      then "high"
      else if jsNumOr (cityMetrics.teleportScores.bind TeleportScores.costOfLiving) 5 < 8
      then "medium" else "low" }

/-! ### Composite quality metrics (`nodeController.ts` lines 430-493) -/

/-- A Teleport factor score as the controller reads it:
`(cityMetrics.teleportScores || \x7b\x7d).X || 5`. -/
def cityScore (cm : CityMetrics) (f : TeleportScores → Option ℚ) : ℚ :=
  jsNumOr (cm.teleportScores.bind f) 5

/-- `cityMetrics.climate?.comfortIndex || 5`. -/
def climateComfort (cm : CityMetrics) : ℚ :=
  jsNumOr (cm.climate.map Climate.comfortIndex) 5

/-- The `newQuality` weighted average of `calculateQualityMetrics`. -/
def freshQuality (cm : CityMetrics) (om : OccupationMetrics)
    (fm : FinancialMetrics) : ℚ :=
  weightedAverage
    [(cityScore cm TeleportScores.safety, 0.25),
     (cityScore cm TeleportScores.healthcare, 0.2),
     (cityScore cm TeleportScores.education, 0.15),
     (cityScore cm TeleportScores.leisure, 0.15),
     (jsNumOrD om.workLifeBalance 5, 0.15),
     (jsNumOrD fm.savingsPotential 5, 0.1)]

/-- The `newHappiness` weighted average of `calculateQualityMetrics`. -/
def freshHappiness (cm : CityMetrics) (om : OccupationMetrics)
    (fm : FinancialMetrics) : ℚ :=
  weightedAverage
    [(cityScore cm TeleportScores.leisure, 0.3),
     (jsNumOrD om.workLifeBalance 5, 0.3),
     (cityScore cm TeleportScores.tolerance, 0.2),
     (jsNumOrD fm.savingsPotential 5, 0.2)]

/-- The health weighted average inlined in `calculateQualityMetrics`. -/
def freshHealth (cm : CityMetrics) : ℚ :=
  weightedAverage
    [(cityScore cm TeleportScores.healthcare, 0.4),
     (cityScore cm TeleportScores.safety, 0.3),
     (climateComfort cm, 0.3)]

/-- The social weighted average inlined in `calculateQualityMetrics`. -/
def freshSocial (cm : CityMetrics) (om : OccupationMetrics) : ℚ :=
  weightedAverage
    [(cityScore cm TeleportScores.tolerance, 0.4),
     (cityScore cm TeleportScores.leisure, 0.3),
     (jsNumOrD om.workLifeBalance 5, 0.3)]

/-- `calculateQualityMetrics` (lines 430-487).  `randCreativity` and
`randAdventure` are the two `Math.random() * 10` draws of the creativity
and adventure branches. -/
def calculateQualityMetrics (cm : CityMetrics) (om : OccupationMetrics)
    (fm : FinancialMetrics) (parentMetrics : Option NodeMetrics)
    (randCreativity randAdventure : ℚ) : QualityMetrics :=
  match parentMetrics with
  | some p =>
    { qualityOfLifeIndex :=
        blendWithParent (freshQuality cm om fm) (jsNumOr p.qualityOfLifeIndex 5) 0.7
      happinessScore :=
        blendWithParent (freshHappiness cm om fm) (jsNumOr p.happinessScore 5) 0.7
      workLifeBalance :=
        jsNumOrD om.workLifeBalance (jsNumOr p.workLifeBalance 5)
      healthIndex :=
        blendWithParent (freshHealth cm) (jsNumOr p.healthIndex 5) 0.6
      socialIndex :=
        blendWithParent (freshSocial cm om) (jsNumOr p.socialIndex 5) 0.6
      creativityIndex :=
        blendWithParent randCreativity (jsNumOr p.creativityIndex 5) 0.5
      adventureIndex :=
        blendWithParent randAdventure (jsNumOr p.adventureIndex 5) 0.5 }
  | none =>
    { qualityOfLifeIndex := freshQuality cm om fm
      happinessScore := freshHappiness cm om fm
      workLifeBalance := jsNumOrD om.workLifeBalance 5
      healthIndex := freshHealth cm
      socialIndex := freshSocial cm om
      creativityIndex := randCreativity
      adventureIndex := randAdventure }

/-! ### Choice normalization (`nodeController.ts` 377-395, `gemini.ts` 241-256) -/

/-- `needsNormalization`: some top-level value of the choice object is a
string containing a space.  `locationChange` is an object, never a string,
so its contents are not inspected. -/
def needsNormalization (choice : Choice) : Bool :=
  (match choice.careerChange with | some s => s.data.contains ' ' | none => false) ||
  (match choice.educationChange with | some s => s.data.contains ' ' | none => false) ||
  (match choice.lifestyleChange with | some s => s.data.contains ' ' | none => false) ||
  (match choice.personalityChange with | some s => s.data.contains ' ' | none => false) ||
  (match choice.relationshipChange with | some s => s.data.contains ' ' | none => false)

/-- `extractChoiceText`: renders career/location/education/lifestyle into
the classifier prompt text; personality and relationship changes are never
rendered. -/
def extractChoiceText (choice : Choice) : String :=
  String.intercalate "; "
    ((if strTruthy choice.careerChange then
        ["Career: " ++ choice.careerChange.getD ""] else []) ++
     (if strTruthy (choice.locationChange.bind LocationChange.city) then
        ["Location: " ++ (choice.locationChange.bind LocationChange.city).getD "" ++
         ", " ++ jsStrOr (choice.locationChange.bind LocationChange.country) ""]
      else []) ++
     (if strTruthy choice.educationChange then
        ["Education: " ++ choice.educationChange.getD ""] else []) ++
     (if strTruthy choice.lifestyleChange then
        ["Lifestyle: " ++ choice.lifestyleChange.getD ""] else []))

/-- `parseChoiceResponse` from `gemini.ts`: maps the classifier JSON to an
`IChoice`, replacing falsy fields by `undefined`; the result never carries
`personalityChange` or `relationshipChange`. -/
def parseChoiceResponse (p : ParsedChoice) : Choice :=
  { careerChange := if strTruthy p.careerChange then p.careerChange else none
    locationChange := p.locationChange
    educationChange := if strTruthy p.educationChange then p.educationChange else none
    lifestyleChange := if strTruthy p.lifestyleChange then p.lifestyleChange else none
    personalityChange := none
    relationshipChange := none }

/-- Step 1 of `createNodeInternal`: normalize the choice when needed.  The
classifier call is not wrapped in a try/catch, so its failure (`none`)
propagates as a pipeline error. -/
def normalizeStep (choice : Choice) (classifierResult : Option ParsedChoice) :
    Except String Choice :=
  if needsNormalization choice then
    match classifierResult with
    | some resp => .ok (parseChoiceResponse resp)
    | none => .error "Choice normalization failed"
  else .ok choice

/-- Whether a choice has at least one populated (truthy) dimension. -/
def hasPopulatedDimension (c : Choice) : Bool :=
  strTruthy c.careerChange ||
  strTruthy (c.locationChange.bind LocationChange.city) ||
  strTruthy (c.locationChange.bind LocationChange.country) ||
  strTruthy c.educationChange ||
  strTruthy c.lifestyleChange ||
  strTruthy c.personalityChange ||
  strTruthy c.relationshipChange

/-! ### Inheritance-resolution cascades (`nodeController.ts` 169-204) -/

/-- City resolution (line 170): choice → parent node metrics → session base
context → `"New York"`; JS `||`, so empty strings also fall through. -/
def resolveCityName (nc : Choice) (parentNode : Option ParentNode)
    (baseContext : Option BaseContext) : String :=
  jsStrOr (nc.locationChange.bind LocationChange.city)
    (jsStrOr (parentNode.bind fun p => p.metrics.bind fun m =>
        m.city.bind StoredCity.name)
      (jsStrOr (baseContext.bind BaseContext.currentCity) "New York"))

/-- Country resolution (line 173): choice → parent node metrics → session
base context → `"United States"`. -/
def resolveCountryName (nc : Choice) (parentNode : Option ParentNode)
    (baseContext : Option BaseContext) : String :=
  jsStrOr (nc.locationChange.bind LocationChange.country)
    (jsStrOr (parentNode.bind fun p => p.metrics.bind fun m =>
        m.city.bind StoredCity.country)
      (jsStrOr (baseContext.bind BaseContext.country) "United States"))

/-- Occupation resolution (line 201): choice → parent node metrics →
`"Software Developer"`.  The session base context is not consulted. -/
def resolveOccupationName (nc : Choice) (parentNode : Option ParentNode) : String :=
  jsStrOr nc.careerChange
    (jsStrOr (parentNode.bind fun p => p.metrics.bind fun m =>
        m.occupation.bind StoredOccupation.name)
      "Software Developer")

/-- Occupation resolution as the spec describes it (§4.2): choice → parent
→ session base context → default.  Stated only to be compared with
`resolveOccupationName`, which is what the code actually does. -/
def specResolveOccupationName (nc : Choice) (parentNode : Option ParentNode)
    (baseContext : Option BaseContext) : String :=
  jsStrOr nc.careerChange
    (jsStrOr (parentNode.bind fun p => p.metrics.bind fun m =>
        m.occupation.bind StoredOccupation.name)
      (jsStrOr (baseContext.bind BaseContext.currentCareer) "Software Developer"))

/-! ### Fallback values (`nodeController.ts` 590-714) -/

/-- `getFallbackCityMetrics` (lines 590-623). -/
def getFallbackCityMetrics (cityName countryName : String) : CityMetrics :=
  { name := cityName
    country := countryName
    coordinates := some { latitude := 40.7128, longitude := -74.0060 }
    teleportScores := some
      { overall := some 6.5
        costOfLiving := some 6.0
        safety := some 7.0
        housing := some 6.0
        healthcare := some 7.0
        education := some 7.0
        leisure := some 6.5
        tolerance := some 7.0
        commute := some 6.0
        business := some 6.5
        economy := some 6.5 }
    climate := some
      { avgTempC := 15
        avgTempF := 59
        rainDays := 120
        sunnyDays := 200
        season := "Temperate"
        comfortIndex := 7.0 }
    population := some 1000000
    timezone := some "UTC" }

/-- JS `Number.prototype.toFixed(1)` for the non-negative scores it is
applied to. -/
def toFixed1 (q : ℚ) : String :=
  toString (jsRound (q * 10) / 10) ++ "." ++ toString ((jsRound (q * 10)) % 10)

/-- UTF-8 bytes of a character, as natural numbers. -/
def utf8Bytes (c : Char) : List ℕ :=
  let n := c.toNat
  if n < 128 then [n]
  else if n < 2048 then [192 + n / 64, 128 + n % 64]
  else if n < 65536 then [224 + n / 4096, 128 + (n / 64) % 64, 128 + n % 64]
  else [240 + n / 262144, 128 + (n / 4096) % 64, 128 + (n / 64) % 64, 128 + n % 64]

/-- Upper-case hexadecimal digit. -/
def hexDigitChar (n : ℕ) : Char :=
  if n < 10 then Char.ofNat (48 + n) else Char.ofNat (55 + n)

/-- One percent-encoded byte, `%HH`. -/
def percentEncodeByte (b : ℕ) : String :=
  "%" ++ String.singleton (hexDigitChar (b / 16)) ++
    String.singleton (hexDigitChar (b % 16))

/-- Characters `encodeURIComponent` leaves unescaped. -/
def isUnreservedChar (ch : Char) : Bool :=
  ch.isAlphanum || ch == '-' || ch == '_' || ch == '.' || ch == '!' ||
  ch == '~' || ch == '*' || ch == '\x27' || ch == '(' || ch == ')'

/-- JS `encodeURIComponent`, character by character. -/
def encodeURIComponentChars : List Char → String
  | [] => ""
  | ch :: rest =>
      (if isUnreservedChar ch then String.singleton ch
       else String.join ((utf8Bytes ch).map percentEncodeByte)) ++
      encodeURIComponentChars rest

/-- JS `encodeURIComponent`. -/
def encodeURIComponent (s : String) : String := encodeURIComponentChars s.data

/-- `getFallbackCoverImage` (lines 708-714). -/
def getFallbackCoverImage (cityName occupationName : String) : CoverImage :=
  { url := "https://via.placeholder.com/800x600/4F46E5/FFFFFF?text=" ++
      encodeURIComponent (cityName ++ " - " ++ occupationName)
    credit := "Placeholder Image Service"
    description := "A representative image for " ++ occupationName ++
      " life in " ++ cityName }

/-- `getFallbackNarrative` (lines 641-706): the deterministic three-chapter
template, parameterized by occupation, city and (when a parent exists) the
parent happiness score. -/
def getFallbackNarrative (_choice : Choice) (cityName occupationName : String)
    (parentNode : Option ParentNode) : Narrative :=
  match parentNode with
  | some pn =>
    { summary :=
        "Building upon your previous life experiences, you\x27ve now decided to make another significant change. " ++
        "From your previous situation where you had achieved a happiness level of " ++
        toFixed1 (jsNumOr (pn.metrics.bind NodeMetrics.happinessScore) 5) ++
        "/10, you\x27re now pursuing a path as a " ++ occupationName ++ " in " ++
        cityName ++ "."
      chapters :=
        [{ title := "Years 0-3: New Beginnings"
           text :=
             "Building on the foundation of my previous experiences, this transition felt both familiar and entirely new. " ++
             "The lessons learned from my earlier path (where I had reached " ++
             toFixed1 (jsNumOr (pn.metrics.bind NodeMetrics.happinessScore) 5) ++
             "/10 happiness) gave me confidence as I moved to " ++ cityName ++
             " and started my career as a " ++ occupationName ++ ". " ++
             "While there were still challenges in adapting to this new direction, I found myself better equipped to handle them, " ++
             "drawing on the wisdom and skills accumulated from my previous journey."
           yearRange := "Years 0-3"
           highlights :=
             ["Building on experience", "Informed transition", "Leveraging past lessons"] },
         { title := "Years 4-8: Finding My Rhythm"
           text :=
             "By the fourth year, the wisdom from my previous path really began to pay dividends. " ++
             "My expertise as a " ++ occupationName ++
             " was growing rapidly, accelerated by the insights and maturity I had gained earlier. " ++
             "The city had become home, and I had established a network of colleagues and friends more quickly than I might have otherwise. " ++
             "This period was marked by steady progress and increasing confidence, built on a foundation of previous experience. " ++
             "I took on more challenging projects and began to see how this new path connected to and enhanced my overall life journey."
           yearRange := "Years 4-8"
           highlights :=
             ["Accelerated growth", "Experience leverage", "Enhanced confidence"] },
         { title := "Years 9-15: Mastery and Impact"
           text :=
             "The later years brought a profound sense of mastery and the ability to make a real impact. " ++
             "As an experienced " ++ occupationName ++
             ", I was now mentoring others and contributing to the broader community in " ++
             cityName ++
             ", drawing on the rich tapestry of experiences from both my previous path and this current journey. " ++
             "The decisions I had made at each branch point were paying dividends, creating a unique combination of skills and perspectives. " ++
             "I had developed a reputation in my field that was enhanced by my diverse background, and was involved in projects that " ++
             "aligned with the evolved understanding of my values and interests. Looking back, this branching path had led to a life " ++
             "that was both fulfilling and meaningful, richer for having explored multiple possibilities."
           yearRange := "Years 9-15"
           highlights :=
             ["Integrated expertise", "Diverse perspective", "Compound fulfillment"] }]
      milestones :=
        [{ year := 1, event := "Started new career", significance := "high",
           category := "career" },
         { year := 3, event := "Established local connections",
           significance := "medium", category := "personal" },
         { year := 6, event := "Achieved professional recognition",
           significance := "high", category := "career" },
         { year := 10, event := "Became community leader",
           significance := "medium", category := "personal" }]
      tone := "balanced"
      confidenceScore := 0.7
      disclaimers :=
        ["This is a simulated scenario", "Individual results may vary",
         "Based on general patterns"] }
  | none =>
    { summary :=
        "In this alternate reality, you\x27ve chosen a path as a " ++ occupationName ++
        " in " ++ cityName ++
        ". This decision has shaped your life in meaningful ways, bringing both opportunities and challenges."
      chapters :=
        [{ title := "Years 0-3: New Beginnings"
           text :=
             "The first few years were transformative. Moving to " ++ cityName ++
             " and starting my career as a " ++ occupationName ++
             " felt like stepping into a completely different world. The initial challenges of adapting to a new environment and learning the ropes of my profession were significant, but they also brought unexpected growth. I found myself developing skills I never knew I had and forming connections that would prove invaluable. The city\x27s unique character began to influence my daily routines and perspectives, slowly but surely changing who I was becoming."
           yearRange := "Years 0-3"
           highlights := ["Career transition", "City adaptation", "Skill development"] },
         { title := "Years 4-8: Finding My Rhythm"
           text :=
             "By the fourth year, I had found my rhythm. My expertise as a " ++
             occupationName ++
             " was growing, and I was beginning to make meaningful contributions to my field. The city had become home, and I had established a network of colleagues and friends. This period was marked by steady progress and increasing confidence. I took on more challenging projects and began to see the long-term potential of the path I had chosen. The work-life balance I had established allowed me to explore the cultural offerings of " ++
             cityName ++ " and develop interests outside of work."
           yearRange := "Years 4-8"
           highlights := ["Professional growth", "Network building", "Work-life balance"] },
         { title := "Years 9-15: Mastery and Impact"
           text :=
             "The later years brought a sense of mastery and the ability to make a real impact. As an experienced " ++
             occupationName ++
             ", I was now mentoring others and contributing to the broader community in " ++
             cityName ++
             ". The decisions I had made years earlier were paying dividends, both professionally and personally. I had developed a reputation in my field and was involved in projects that aligned with my values and interests. Looking back, the alternative path had led to a life that was both fulfilling and meaningful, different from what I had originally imagined but rich in its own unique way."
           yearRange := "Years 9-15"
           highlights :=
             ["Expertise recognition", "Community impact", "Personal fulfillment"] }]
      milestones :=
        [{ year := 1, event := "Started new career", significance := "high",
           category := "career" },
         { year := 3, event := "Established local connections",
           significance := "medium", category := "personal" },
         { year := 6, event := "Achieved professional recognition",
           significance := "high", category := "career" },
         { year := 10, event := "Became community leader",
           significance := "medium", category := "personal" }]
      tone := "balanced"
      confidenceScore := 0.7
      disclaimers :=
        ["This is a simulated scenario", "Individual results may vary",
         "Based on general patterns"] }

/-! ### The pipeline (`createNodeInternal`, lines 99-287) -/

/-- The placeholder row written synchronously by `node.save()` before the
pipeline runs (status `generating`; placeholder payloads modelled as
`none`). -/
def placeholderNode (p : InternalParams) : NodeDoc :=
  { depth := p.depth
    order := p.order
    choice := p.choice
    status := .generating
    errorMessage := none
    metrics := none
    narrative := none
    coverPhoto := none
    processingTime := none }

/-- Step 3: on success the climate call overwrites `coordinates` and
`climate` on the resolved city metrics; on failure they are kept as-is. -/
def applyClimate (cm : CityMetrics) (r : Option (Coordinates × Climate)) :
    CityMetrics :=
  match r with
  | some cc => { cm with coordinates := some cc.1, climate := some cc.2 }
  | none => cm

/-- Steps 2-3: city metrics from Teleport, falling back to
`getFallbackCityMetrics` when the call throws, then the climate update. -/
def resolvedCity (p : InternalParams) (c : Collaborators) (nc : Choice) :
    CityMetrics :=
  applyClimate
    (c.cityResult.getD
      (getFallbackCityMetrics (resolveCityName nc p.parentNode p.baseContext)
        (resolveCountryName nc p.parentNode p.baseContext)))
    c.climateResult

/-- Steps 2-5 and 8: the metrics bundle persisted on success. -/
def resolvedMetrics (p : InternalParams) (c : Collaborators) (nc : Choice) :
    FullMetrics :=
  { city := resolvedCity p c nc
    occupation :=
      getOccupationMetrics (resolveOccupationName nc p.parentNode) c.occRand
    finances :=
      calculateFinancialMetrics
        (getOccupationMetrics (resolveOccupationName nc p.parentNode) c.occRand)
        (resolvedCity p c nc)
    quality :=
      calculateQualityMetrics (resolvedCity p c nc)
        (getOccupationMetrics (resolveOccupationName nc p.parentNode) c.occRand)
        (calculateFinancialMetrics
          (getOccupationMetrics (resolveOccupationName nc p.parentNode) c.occRand)
          (resolvedCity p c nc))
        (p.parentNode.bind ParentNode.metrics)
        c.randCreativity c.randAdventure }

/-- Step 9: the fully populated document persisted on success.  Narrative
and cover image each fall back to their deterministic templates when the
corresponding collaborator call throws. -/
def completedNode (p : InternalParams) (c : Collaborators) (elapsed : ℕ)
    (nc : Choice) : NodeDoc :=
  { placeholderNode p with
    choice := nc
    status := .completed
    metrics := some (resolvedMetrics p c nc)
    narrative := some (c.narrativeResult.getD
      (getFallbackNarrative nc (resolveCityName nc p.parentNode p.baseContext)
        (resolveOccupationName nc p.parentNode) p.parentNode))
    coverPhoto := some (c.imageResult.getD
      (getFallbackCoverImage (resolveCityName nc p.parentNode p.baseContext)
        (resolveOccupationName nc p.parentNode)))
    processingTime := some elapsed }

/-- `createNodeInternal`: persists the placeholder, runs the pipeline, and
either finalizes the node as `completed` or — when a step throws — marks
it `error` (recording the message and processing time) and rethrows.
In this model the only throwing step is the unguarded classifier call of
step 1; every other collaborator call is individually caught and replaced
by its documented fallback. -/
def createNodeInternal (p : InternalParams) (c : Collaborators) (elapsed : ℕ) :
    PipelineResult :=
  match normalizeStep p.choice c.classifierResult with
  | .error msg =>
      .failed
        { placeholderNode p with
          status := .error
          errorMessage := some msg
          processingTime := some elapsed }
        msg
  | .ok nc => .ok (completedNode p c elapsed nc)

/-- Depth computed by `createNode` (line 43). -/
def computeDepth : Option ParentNode → ℕ
  | some p => p.depth + 1
  | none => 0

/-- Order computed by `createNode` (line 44): the count of existing
siblings, `0` for a root. -/
def computeOrder (parentNode : Option ParentNode) (siblingCount : ℕ) : ℕ :=
  match parentNode with
  | some _ => siblingCount
  | none => 0

/-- The `createNode` controller action (lines 20-97), on the path where the
session exists and the parent (when given) is valid.  The depth guard runs
before any node row is persisted; `updateSessionStats` (line 64) is reached
only when `createNodeInternal` returns normally. -/
def createNode (parentNode : Option ParentNode) (choice : Choice)
    (baseContext : Option BaseContext) (siblingCount : ℕ)
    (collab : Collaborators) (elapsed : ℕ) : CreateOutcome :=
  if computeDepth parentNode > 10 then
    { response := .validationError "Maximum tree depth exceeded"
      node := none
      statsUpdated := false }
  else
    match createNodeInternal
        { parentNode := parentNode
          depth := computeDepth parentNode
          order := computeOrder parentNode siblingCount
          choice := choice
          baseContext := baseContext } collab elapsed with
    | .ok node =>
        { response := .created, node := some node, statsUpdated := true }
    | .failed node _ =>
        { response := .serverError, node := some node, statsUpdated := false }

/-- Range predicate for optional scores read through `|| 5` fallbacks. -/
def optInRange (x : Option ℚ) : Prop :=
  ∀ v, x = some v → 0 ≤ v ∧ v ≤ 10

/-! ### Sample inputs used by witnesses and counterexamples -/

/-- A structured choice needing no normalization. -/
def choiceChef : Choice :=
  { careerChange := some "chef"
    locationChange := none
    educationChange := none
    lifestyleChange := none
    personalityChange := none
    relationshipChange := none }

/-- A free-text choice that triggers normalization. -/
def choiceFreeText : Choice :=
  { careerChange := some "become a chef"
    locationChange := none
    educationChange := none
    lifestyleChange := none
    personalityChange := none
    relationshipChange := none }

/-- A choice whose only populated dimensions are personality and
relationship changes. -/
def choicePersonal : Choice :=
  { careerChange := none
    locationChange := none
    educationChange := none
    lifestyleChange := none
    personalityChange := some "more confident"
    relationshipChange := some "get married" }

/-- City metrics with no Teleport scores and no climate: every factor
falls back to 5. -/
def cityBare : CityMetrics :=
  { name := "New York"
    country := "United States"
    coordinates := none
    teleportScores := none
    climate := none
    population := none
    timezone := none }

/-- Occupation metrics sample with work-life balance 5. -/
def occFive : OccupationMetrics :=
  getOccupationMetrics "chef" { demandIndex := 5, workLifeBalance := 5, stressLevel := 5 }

/-- Financial metrics sample with savings potential 5. -/
def finFive : FinancialMetrics :=
  { salaryLowUSD := 40000
    salaryHighUSD := 75000
    salaryMedianUSD := 50000
    colIndex := 5
    currency := "USD"
    savingsPotential := 5
    retirementAge := 65
    financialSecurity := "high" }

/-- Parent metrics whose stored happiness score is 8.0 and whose other
indices are 5. -/
def parentHappy8 : NodeMetrics :=
  { city := some { name := some "Paris", country := some "France" }
    occupation := some { name := some "Artist" }
    qualityOfLifeIndex := some 5
    happinessScore := some 8
    workLifeBalance := some 5
    healthIndex := some 5
    socialIndex := some 5
    creativityIndex := some 5
    adventureIndex := some 5 }

/-- Parent metrics whose stored happiness score is 0. -/
def parentHappy0 : NodeMetrics :=
  { parentHappy8 with happinessScore := some 0 }

/-- A base context whose current career is Chef. -/
def baseContextChef : BaseContext :=
  { age := some 30
    country := some "France"
    currentCareer := some "Chef"
    currentCity := some "Lyon"
    currentEducation := none }

/-- Collaborators with every external call failing and all draws 5. -/
def collabAllDown : Collaborators :=
  { classifierResult := none
    cityResult := none
    climateResult := none
    narrativeResult := none
    imageResult := none
    occRand := { demandIndex := 5, workLifeBalance := 5, stressLevel := 5 }
    randCreativity := 5
    randAdventure := 5 }

/-- A choice whose only populated dimension is a lifestyle change. -/
def choiceMinimal : Choice :=
  { careerChange := none
    locationChange := none
    educationChange := none
    lifestyleChange := some "minimalism"
    personalityChange := none
    relationshipChange := none }

/-- A parent node at depth 3 carrying the sample metrics (city Paris). -/
def parentParis : ParentNode :=
  { depth := 3, metrics := some parentHappy8 }

/-- The classifier response with every dimension null. -/
def parsedEmpty : ParsedChoice :=
  { careerChange := none
    locationChange := none
    educationChange := none
    lifestyleChange := none }

/-! ### Arithmetic lemmas about the rounding primitives -/

theorem jsRound_intCast (n : ℤ) : jsRound (n : ℚ) = n := by
  unfold jsRound
  rw [Int.floor_int_add]
  norm_num

theorem round1_of_tenth (k : ℤ) : round1 ((k : ℚ) / 10) = (k : ℚ) / 10 := by
  unfold round1
  have h : (k : ℚ) / 10 * 10 = (k : ℚ) := by field_simp
  rw [h, jsRound_intCast]

theorem round1_nonneg {x : ℚ} (hx : 0 ≤ x) : 0 ≤ round1 x := by
  unfold round1 jsRound
  have h0 : (0 : ℤ) ≤ ⌊x * 10 + 1/2⌋ := by
    apply Int.le_floor.mpr
    push_cast
    linarith
  have h1 : (0 : ℚ) ≤ (⌊x * 10 + 1/2⌋ : ℚ) := by exact_mod_cast h0
  linarith

theorem round1_le_ten {x : ℚ} (hx : x ≤ 10) : round1 x ≤ 10 := by
  unfold round1 jsRound
  have h1 : ⌊x * 10 + 1/2⌋ < 101 := by
    apply Int.floor_lt.mpr
    push_cast
    linarith
  have h2 : ⌊x * 10 + 1/2⌋ ≤ 100 := by omega
  have h3 : ((⌊x * 10 + 1/2⌋ : ℤ) : ℚ) ≤ 100 := by exact_mod_cast h2
  linarith

theorem round1_idem (x : ℚ) : round1 (round1 x) = round1 x := by
  have h : round1 x = ((jsRound (x * 10) : ℤ) : ℚ) / 10 := rfl
  rw [h, round1_of_tenth]

theorem round1_weightedAverage (l : List (ℚ × ℚ)) :
    round1 (weightedAverage l) = weightedAverage l := by
  unfold weightedAverage
  exact round1_idem _

theorem jsNumOr_of_ne {x : Option ℚ} {v : ℚ} (hx : x = some v) (hv : v ≠ 0) :
    jsNumOr x 5 = v := by
  subst hx
  simp [jsNumOr, hv]

theorem jsNumOr_mem {x : Option ℚ} (h : optInRange x) :
    0 ≤ jsNumOr x 5 ∧ jsNumOr x 5 ≤ 10 := by
  unfold jsNumOr
  match x with
  | none => norm_num
  | some v =>
    by_cases hv : v = 0
    · simp only [if_pos hv]
      norm_num
    · simp only [if_neg hv]
      exact h v rfl

theorem jsNumOrD_mem {v : ℚ} (d : ℚ) (hv : 0 ≤ v ∧ v ≤ 10) (hd : 0 ≤ d ∧ d ≤ 10) :
    0 ≤ jsNumOrD v d ∧ jsNumOrD v d ≤ 10 := by
  unfold jsNumOrD
  by_cases h : v = 0
  · simp [h]; exact hd
  · simp only [if_neg h]; exact hv

theorem cityScore_mem {cm : CityMetrics} {f : TeleportScores → Option ℚ}
    (h : optInRange (cm.teleportScores.bind f)) :
    0 ≤ cityScore cm f ∧ cityScore cm f ≤ 10 := by
  unfold cityScore
  exact jsNumOr_mem h

theorem climateComfort_mem {cm : CityMetrics}
    (h : optInRange (cm.climate.map Climate.comfortIndex)) :
    0 ≤ climateComfort cm ∧ climateComfort cm ≤ 10 := by
  unfold climateComfort
  exact jsNumOr_mem h

theorem blend_mem {n p w : ℚ} (hn : 0 ≤ n ∧ n ≤ 10) (hp : 0 ≤ p ∧ p ≤ 10)
    (hw : 0 ≤ w ∧ w ≤ 1) :
    0 ≤ blendWithParent n p w ∧ blendWithParent n p w ≤ 10 := by
  unfold blendWithParent
  obtain ⟨hn0, hn1⟩ := hn
  obtain ⟨hp0, hp1⟩ := hp
  obtain ⟨hw0, hw1⟩ := hw
  constructor
  · apply round1_nonneg
    nlinarith [mul_nonneg hn0 hw0, mul_nonneg hp0 (by linarith : (0:ℚ) ≤ 1 - w)]
  · apply round1_le_ten
    nlinarith [mul_nonneg (by linarith : (0:ℚ) ≤ 10 - n) hw0,
      mul_nonneg (by linarith : (0:ℚ) ≤ 10 - p) (by linarith : (0:ℚ) ≤ 1 - w)]

theorem weightedAverage_three (a w1 b w2 c w3 : ℚ) :
    weightedAverage [(a, w1), (b, w2), (c, w3)] =
      round1 ((a * w1 + b * w2 + c * w3) / (w1 + w2 + w3)) := by
  unfold weightedAverage
  simp only [List.foldl]
  ring_nf

theorem weightedAverage_four (a w1 b w2 c w3 d w4 : ℚ) :
    weightedAverage [(a, w1), (b, w2), (c, w3), (d, w4)] =
      round1 ((a * w1 + b * w2 + c * w3 + d * w4) / (w1 + w2 + w3 + w4)) := by
  unfold weightedAverage
  simp only [List.foldl]
  ring_nf

theorem weightedAverage_six (a w1 b w2 c w3 d w4 e w5 f w6 : ℚ) :
    weightedAverage [(a, w1), (b, w2), (c, w3), (d, w4), (e, w5), (f, w6)] =
      round1 ((a * w1 + b * w2 + c * w3 + d * w4 + e * w5 + f * w6) /
        (w1 + w2 + w3 + w4 + w5 + w6)) := by
  unfold weightedAverage
  simp only [List.foldl]
  ring_nf

theorem freshQuality_mem {cm : CityMetrics} {om : OccupationMetrics}
    {fm : FinancialMetrics}
    (hsaf : optInRange (cm.teleportScores.bind TeleportScores.safety))
    (hhc : optInRange (cm.teleportScores.bind TeleportScores.healthcare))
    (hed : optInRange (cm.teleportScores.bind TeleportScores.education))
    (hle : optInRange (cm.teleportScores.bind TeleportScores.leisure))
    (hwlb : 0 ≤ om.workLifeBalance ∧ om.workLifeBalance ≤ 10)
    (hsav : 0 ≤ fm.savingsPotential ∧ fm.savingsPotential ≤ 10) :
    0 ≤ freshQuality cm om fm ∧ freshQuality cm om fm ≤ 10 := by
  obtain ⟨a0, a1⟩ := cityScore_mem hsaf
  obtain ⟨b0, b1⟩ := cityScore_mem hhc
  obtain ⟨c0, c1⟩ := cityScore_mem hed
  obtain ⟨d0, d1⟩ := cityScore_mem hle
  obtain ⟨e0, e1⟩ := jsNumOrD_mem 5 hwlb (by norm_num)
  obtain ⟨f0, f1⟩ := jsNumOrD_mem 5 hsav (by norm_num)
  unfold freshQuality
  rw [weightedAverage_six]
  have hW : (0.25 + 0.2 + 0.15 + 0.15 + 0.15 + 0.1 : ℚ) = 1 := by norm_num
  rw [hW, div_one]
  constructor
  · apply round1_nonneg; nlinarith
  · apply round1_le_ten; nlinarith

theorem freshHappiness_mem {cm : CityMetrics} {om : OccupationMetrics}
    {fm : FinancialMetrics}
    (hle : optInRange (cm.teleportScores.bind TeleportScores.leisure))
    (hto : optInRange (cm.teleportScores.bind TeleportScores.tolerance))
    (hwlb : 0 ≤ om.workLifeBalance ∧ om.workLifeBalance ≤ 10)
    (hsav : 0 ≤ fm.savingsPotential ∧ fm.savingsPotential ≤ 10) :
    0 ≤ freshHappiness cm om fm ∧ freshHappiness cm om fm ≤ 10 := by
  obtain ⟨a0, a1⟩ := cityScore_mem hle
  obtain ⟨b0, b1⟩ := jsNumOrD_mem 5 hwlb (by norm_num)
  obtain ⟨c0, c1⟩ := cityScore_mem hto
  obtain ⟨d0, d1⟩ := jsNumOrD_mem 5 hsav (by norm_num)
  unfold freshHappiness
  rw [weightedAverage_four]
  have hW : (0.3 + 0.3 + 0.2 + 0.2 : ℚ) = 1 := by norm_num
  rw [hW, div_one]
  constructor
  · apply round1_nonneg; nlinarith
  · apply round1_le_ten; nlinarith

theorem freshHealth_mem {cm : CityMetrics}
    (hhc : optInRange (cm.teleportScores.bind TeleportScores.healthcare))
    (hsaf : optInRange (cm.teleportScores.bind TeleportScores.safety))
    (hcc : optInRange (cm.climate.map Climate.comfortIndex)) :
    0 ≤ freshHealth cm ∧ freshHealth cm ≤ 10 := by
  obtain ⟨a0, a1⟩ := cityScore_mem hhc
  obtain ⟨b0, b1⟩ := cityScore_mem hsaf
  obtain ⟨c0, c1⟩ := climateComfort_mem hcc
  unfold freshHealth
  rw [weightedAverage_three]
  have hW : (0.4 + 0.3 + 0.3 : ℚ) = 1 := by norm_num
  rw [hW, div_one]
  constructor
  · apply round1_nonneg; nlinarith
  · apply round1_le_ten; nlinarith

theorem freshSocial_mem {cm : CityMetrics} {om : OccupationMetrics}
    (hto : optInRange (cm.teleportScores.bind TeleportScores.tolerance))
    (hle : optInRange (cm.teleportScores.bind TeleportScores.leisure))
    (hwlb : 0 ≤ om.workLifeBalance ∧ om.workLifeBalance ≤ 10) :
    0 ≤ freshSocial cm om ∧ freshSocial cm om ≤ 10 := by
  obtain ⟨a0, a1⟩ := cityScore_mem hto
  obtain ⟨b0, b1⟩ := cityScore_mem hle
  obtain ⟨c0, c1⟩ := jsNumOrD_mem 5 hwlb (by norm_num)
  unfold freshSocial
  rw [weightedAverage_three]
  have hW : (0.4 + 0.3 + 0.3 : ℚ) = 1 := by norm_num
  rw [hW, div_one]
  constructor
  · apply round1_nonneg; nlinarith
  · apply round1_le_ten; nlinarith

theorem optInRange_none : optInRange none :=
  fun _ h => Option.noConfusion h

theorem optInRange_const {q : ℚ} (h0 : 0 ≤ q) (h1 : q ≤ 10) :
    optInRange (some q) := by
  intro v hv
  injection hv with h
  subst h
  exact ⟨h0, h1⟩

/-- C8 counterexample: blending `0.05` with itself at weight `1/2` returns
`0.1`, not `0.05` — the claimed idempotence `blend(v, v, w) = v` fails for
values that are not multiples of one tenth, because of the final rounding. -/
theorem c8_counterexample :
    blendWithParent (1/20) (1/20) (1/2) = 1/10 ∧ ((1/10 : ℚ) ≠ 1/20) := by
  constructor
  · unfold blendWithParent round1 jsRound
    norm_num
  · norm_num

/-- C8 (amended): blending any value with itself as parent at any weight
returns the value rounded to one decimal, `blend(v, v, w) = round1 v`;
hence it returns `v` itself exactly when `v` is already a one-decimal
value (`v = k/10`). -/
theorem c8_blend_idempotence (v w : ℚ) :
    blendWithParent v v w = round1 v ∧
    (∀ k : ℤ, v = (k : ℚ) / 10 → blendWithParent v v w = v) := by
  have hself : blendWithParent v v w = round1 v := by
    unfold blendWithParent
    congr 1
    ring
  refine ⟨hself, fun k hk => ?_⟩
  rw [hself, hk, round1_of_tenth]

/-- C8 witness: at `v = 3/10`, `w = 1/2` the blend returns `v` exactly. -/
theorem c8_blend_idempotence_witness :
    ((3 : ℚ)/10 = ((3 : ℤ) : ℚ)/10) ∧
    blendWithParent (3/10) (3/10) (1/2) = 3/10 :=
  ⟨by norm_num, (c8_blend_idempotence (3/10) (1/2)).2 3 (by norm_num)⟩

/-- C9: a parent `happinessScore` of `0` is swallowed by the truthiness
fallback — the child's blend uses baseline `5`, never `0`; and in general
the `|| 5` factor fallback maps both `0` and a missing value to `5`. -/
theorem c9_zero_swallowed (cm : CityMetrics) (om : OccupationMetrics)
    (fm : FinancialMetrics) (p : NodeMetrics) (rc ra : ℚ)
    (h : p.happinessScore = some 0) :
    (calculateQualityMetrics cm om fm (some p) rc ra).happinessScore =
      blendWithParent (freshHappiness cm om fm) 5 0.7 ∧
    (∀ d : ℚ, jsNumOr (some 0) d = d) ∧
    (∀ d : ℚ, jsNumOr none d = d) := by
  refine ⟨?_, fun d => by simp [jsNumOr], fun d => rfl⟩
  simp only [calculateQualityMetrics, h]
  norm_num [jsNumOr]

/-- C9 witness: for the sample parent whose stored happiness is `0`, the
blend baseline is `5`. -/
theorem c9_zero_swallowed_witness :
    (calculateQualityMetrics cityBare occFive finFive (some parentHappy0) 5 5).happinessScore =
      blendWithParent (freshHappiness cityBare occFive finFive) 5 0.7 :=
  (c9_zero_swallowed cityBare occFive finFive parentHappy0 5 5 rfl).1

/-- C1 counterexample: with no parent, the creativity index is returned
unrounded — at the possible draw `0.05` the final value is `0.05`, while
the claimed `round(fresh, 1)` would be `0.1`. -/
theorem c1_counterexample :
    (calculateQualityMetrics cityBare occFive finFive none (1/20) 5).creativityIndex
      = 1/20 ∧
    round1 (1/20) = 1/10 ∧ ((1/20 : ℚ) ≠ 1/10) := by
  refine ⟨rfl, ?_, by norm_num⟩
  unfold round1 jsRound
  norm_num

/-- C1 (amended): with a parent whose stored indices are truthy, each
composite index is `round(fresh × w + parent × (1 − w), 1)` with `w = 0.7`
for quality-of-life/happiness, `0.6` for health/social and `0.5` for
creativity/adventure; without a parent the four averaged indices equal
`round(fresh, 1)` (they are produced already rounded), while the
creativity and adventure indices are the raw random draws, not rounded. -/
theorem c1_parent_blending (cm : CityMetrics) (om : OccupationMetrics)
    (fm : FinancialMetrics) (p : NodeMetrics) (rc ra : ℚ)
    (bq bh bhl bs bc ba : ℚ)
    (hbq : p.qualityOfLifeIndex = some bq) (hbq0 : bq ≠ 0)
    (hbh : p.happinessScore = some bh) (hbh0 : bh ≠ 0)
    (hbhl : p.healthIndex = some bhl) (hbhl0 : bhl ≠ 0)
    (hbs : p.socialIndex = some bs) (hbs0 : bs ≠ 0)
    (hbc : p.creativityIndex = some bc) (hbc0 : bc ≠ 0)
    (hba : p.adventureIndex = some ba) (hba0 : ba ≠ 0) :
    ((calculateQualityMetrics cm om fm (some p) rc ra).qualityOfLifeIndex
        = round1 (freshQuality cm om fm * 0.7 + bq * (1 - 0.7)) ∧
     (calculateQualityMetrics cm om fm (some p) rc ra).happinessScore
        = round1 (freshHappiness cm om fm * 0.7 + bh * (1 - 0.7)) ∧
     (calculateQualityMetrics cm om fm (some p) rc ra).healthIndex
        = round1 (freshHealth cm * 0.6 + bhl * (1 - 0.6)) ∧
     (calculateQualityMetrics cm om fm (some p) rc ra).socialIndex
        = round1 (freshSocial cm om * 0.6 + bs * (1 - 0.6)) ∧
     (calculateQualityMetrics cm om fm (some p) rc ra).creativityIndex
        = round1 (rc * 0.5 + bc * (1 - 0.5)) ∧
     (calculateQualityMetrics cm om fm (some p) rc ra).adventureIndex
        = round1 (ra * 0.5 + ba * (1 - 0.5))) ∧
    ((calculateQualityMetrics cm om fm none rc ra).qualityOfLifeIndex
        = round1 (freshQuality cm om fm) ∧
     (calculateQualityMetrics cm om fm none rc ra).happinessScore
        = round1 (freshHappiness cm om fm) ∧
     (calculateQualityMetrics cm om fm none rc ra).healthIndex
        = round1 (freshHealth cm) ∧
     (calculateQualityMetrics cm om fm none rc ra).socialIndex
        = round1 (freshSocial cm om) ∧
     (calculateQualityMetrics cm om fm none rc ra).creativityIndex = rc ∧
     (calculateQualityMetrics cm om fm none rc ra).adventureIndex = ra) := by
  constructor
  · simp only [calculateQualityMetrics]
    rw [jsNumOr_of_ne hbq hbq0, jsNumOr_of_ne hbh hbh0, jsNumOr_of_ne hbhl hbhl0,
      jsNumOr_of_ne hbs hbs0, jsNumOr_of_ne hbc hbc0, jsNumOr_of_ne hba hba0]
    unfold blendWithParent
    exact ⟨rfl, rfl, rfl, rfl, rfl, rfl⟩
  · refine ⟨?_, ?_, ?_, ?_, rfl, rfl⟩
    · exact (round1_weightedAverage _).symm
    · exact (round1_weightedAverage _).symm
    · exact (round1_weightedAverage _).symm
    · exact (round1_weightedAverage _).symm

/-- C1 witness: for the sample parent with stored happiness `8.0` and a
city/occupation/finances combination whose fresh happiness is `5.0`, the
blended happiness at weight `0.7` is `5.9`. -/
theorem c1_parent_blending_witness :
    parentHappy8.happinessScore = some 8 ∧
    (calculateQualityMetrics cityBare occFive finFive (some parentHappy8) 5 5).happinessScore
      = round1 (freshHappiness cityBare occFive finFive * 0.7 + 8 * (1 - 0.7)) ∧
    freshHappiness cityBare occFive finFive = 5 ∧
    (calculateQualityMetrics cityBare occFive finFive (some parentHappy8) 5 5).happinessScore
      = 5.9 := by
  have h := c1_parent_blending cityBare occFive finFive parentHappy8 5 5
    5 8 5 5 5 5 rfl (by norm_num) rfl (by norm_num) rfl (by norm_num)
    rfl (by norm_num) rfl (by norm_num) rfl (by norm_num)
  have hh := h.1.2.1
  have hfresh : freshHappiness cityBare occFive finFive = 5 := by
    unfold freshHappiness cityScore
    rw [weightedAverage_four]
    norm_num [cityBare, occFive, getOccupationMetrics, finFive, jsNumOr, jsNumOrD]
    unfold round1 jsRound
    norm_num
  refine ⟨rfl, hh, hfresh, ?_⟩
  rw [hh, hfresh]
  unfold round1 jsRound
  norm_num

/-- C2: all seven composite indices stay in `[0, 10]` for any factor
scores, parent values and random draws in `[0, 10]`, with or without a
parent. -/
theorem c2_range_invariant (cm : CityMetrics) (om : OccupationMetrics)
    (fm : FinancialMetrics) (pm : Option NodeMetrics) (rc ra : ℚ)
    (hsaf : optInRange (cm.teleportScores.bind TeleportScores.safety))
    (hhc : optInRange (cm.teleportScores.bind TeleportScores.healthcare))
    (hed : optInRange (cm.teleportScores.bind TeleportScores.education))
    (hle : optInRange (cm.teleportScores.bind TeleportScores.leisure))
    (hto : optInRange (cm.teleportScores.bind TeleportScores.tolerance))
    (hcc : optInRange (cm.climate.map Climate.comfortIndex))
    (hwlb : 0 ≤ om.workLifeBalance ∧ om.workLifeBalance ≤ 10)
    (hsav : 0 ≤ fm.savingsPotential ∧ fm.savingsPotential ≤ 10)
    (hpq : optInRange (pm.bind NodeMetrics.qualityOfLifeIndex))
    (hph : optInRange (pm.bind NodeMetrics.happinessScore))
    (hpw : optInRange (pm.bind NodeMetrics.workLifeBalance))
    (hphl : optInRange (pm.bind NodeMetrics.healthIndex))
    (hps : optInRange (pm.bind NodeMetrics.socialIndex))
    (hpc : optInRange (pm.bind NodeMetrics.creativityIndex))
    (hpa : optInRange (pm.bind NodeMetrics.adventureIndex))
    (hrc : 0 ≤ rc ∧ rc ≤ 10) (hra : 0 ≤ ra ∧ ra ≤ 10) :
    (0 ≤ (calculateQualityMetrics cm om fm pm rc ra).qualityOfLifeIndex ∧
      (calculateQualityMetrics cm om fm pm rc ra).qualityOfLifeIndex ≤ 10) ∧
    (0 ≤ (calculateQualityMetrics cm om fm pm rc ra).happinessScore ∧
      (calculateQualityMetrics cm om fm pm rc ra).happinessScore ≤ 10) ∧
    (0 ≤ (calculateQualityMetrics cm om fm pm rc ra).workLifeBalance ∧
      (calculateQualityMetrics cm om fm pm rc ra).workLifeBalance ≤ 10) ∧
    (0 ≤ (calculateQualityMetrics cm om fm pm rc ra).healthIndex ∧
      (calculateQualityMetrics cm om fm pm rc ra).healthIndex ≤ 10) ∧
    (0 ≤ (calculateQualityMetrics cm om fm pm rc ra).socialIndex ∧
      (calculateQualityMetrics cm om fm pm rc ra).socialIndex ≤ 10) ∧
    (0 ≤ (calculateQualityMetrics cm om fm pm rc ra).creativityIndex ∧
      (calculateQualityMetrics cm om fm pm rc ra).creativityIndex ≤ 10) ∧
    (0 ≤ (calculateQualityMetrics cm om fm pm rc ra).adventureIndex ∧
      (calculateQualityMetrics cm om fm pm rc ra).adventureIndex ≤ 10) := by
  have hq := freshQuality_mem hsaf hhc hed hle hwlb hsav
  have hh := freshHappiness_mem hle hto hwlb hsav
  have hhl := freshHealth_mem hhc hsaf hcc
  have hs := freshSocial_mem hto hle hwlb
  cases pm with
  | none =>
    simp only [calculateQualityMetrics]
    exact ⟨hq, hh, jsNumOrD_mem 5 hwlb (by norm_num), hhl, hs, hrc, hra⟩
  | some p =>
    simp only [Option.some_bind] at hpq hph hpw hphl hps hpc hpa
    simp only [calculateQualityMetrics]
    exact ⟨blend_mem hq (jsNumOr_mem hpq) (by norm_num),
      blend_mem hh (jsNumOr_mem hph) (by norm_num),
      jsNumOrD_mem (jsNumOr p.workLifeBalance 5) hwlb (jsNumOr_mem hpw),
      blend_mem hhl (jsNumOr_mem hphl) (by norm_num),
      blend_mem hs (jsNumOr_mem hps) (by norm_num),
      blend_mem hrc (jsNumOr_mem hpc) (by norm_num),
      blend_mem hra (jsNumOr_mem hpa) (by norm_num)⟩

/-- C2 witness: at the sample inputs, all seven indices lie in `[0, 10]`. -/
theorem c2_range_invariant_witness :
    (0 ≤ (calculateQualityMetrics cityBare occFive finFive (some parentHappy8) 5 5).qualityOfLifeIndex ∧
      (calculateQualityMetrics cityBare occFive finFive (some parentHappy8) 5 5).qualityOfLifeIndex ≤ 10) ∧
    (0 ≤ (calculateQualityMetrics cityBare occFive finFive (some parentHappy8) 5 5).happinessScore ∧
      (calculateQualityMetrics cityBare occFive finFive (some parentHappy8) 5 5).happinessScore ≤ 10) ∧
    (0 ≤ (calculateQualityMetrics cityBare occFive finFive (some parentHappy8) 5 5).workLifeBalance ∧
      (calculateQualityMetrics cityBare occFive finFive (some parentHappy8) 5 5).workLifeBalance ≤ 10) ∧
    (0 ≤ (calculateQualityMetrics cityBare occFive finFive (some parentHappy8) 5 5).healthIndex ∧
      (calculateQualityMetrics cityBare occFive finFive (some parentHappy8) 5 5).healthIndex ≤ 10) ∧
    (0 ≤ (calculateQualityMetrics cityBare occFive finFive (some parentHappy8) 5 5).socialIndex ∧
      (calculateQualityMetrics cityBare occFive finFive (some parentHappy8) 5 5).socialIndex ≤ 10) ∧
    (0 ≤ (calculateQualityMetrics cityBare occFive finFive (some parentHappy8) 5 5).creativityIndex ∧
      (calculateQualityMetrics cityBare occFive finFive (some parentHappy8) 5 5).creativityIndex ≤ 10) ∧
    (0 ≤ (calculateQualityMetrics cityBare occFive finFive (some parentHappy8) 5 5).adventureIndex ∧
      (calculateQualityMetrics cityBare occFive finFive (some parentHappy8) 5 5).adventureIndex ≤ 10) :=
  c2_range_invariant cityBare occFive finFive (some parentHappy8) 5 5
    optInRange_none optInRange_none optInRange_none optInRange_none
    optInRange_none optInRange_none
    (by norm_num [occFive, getOccupationMetrics])
    (by norm_num [finFive])
    (optInRange_const (by norm_num) (by norm_num))
    (optInRange_const (by norm_num) (by norm_num))
    (optInRange_const (by norm_num) (by norm_num))
    (optInRange_const (by norm_num) (by norm_num))
    (optInRange_const (by norm_num) (by norm_num))
    (optInRange_const (by norm_num) (by norm_num))
    (optInRange_const (by norm_num) (by norm_num))
    (by norm_num) (by norm_num)

theorem getBaseSalary_cases (occ : String) :
    getBaseSalary occ = 85000 ∨ getBaseSalary occ = 200000 ∨
    getBaseSalary occ = 75000 ∨ getBaseSalary occ = 45000 ∨
    getBaseSalary occ = 35000 ∨ getBaseSalary occ = 40000 ∨
    getBaseSalary occ = 120000 ∨ getBaseSalary occ = 50000 := by
  simp only [getBaseSalary]
  split_ifs <;> tauto

theorem getBaseSalary_dvd (occ : String) :
    ∃ m : ℤ, getBaseSalary occ = 1000 * (m : ℚ) := by
  rcases getBaseSalary_cases occ with h | h | h | h | h | h | h | h
  · exact ⟨85, by rw [h]; norm_num⟩
  · exact ⟨200, by rw [h]; norm_num⟩
  · exact ⟨75, by rw [h]; norm_num⟩
  · exact ⟨45, by rw [h]; norm_num⟩
  · exact ⟨35, by rw [h]; norm_num⟩
  · exact ⟨40, by rw [h]; norm_num⟩
  · exact ⟨120, by rw [h]; norm_num⟩
  · exact ⟨50, by rw [h]; norm_num⟩

/-- C7: for any resolved occupation and any city whose (truthy) cost of
living score is a one-decimal value `k/10`, the derived financial metrics
are exactly the documented formulas: median salary
`base × (col / 5)`, low/high bands `base × 0.8` and `base × 1.5` before
the same scaling, and `savingsPotential = max(0, 10 − col)`.  The
`Math.round` to whole dollars is exact because every base salary is a
multiple of 1000. -/
theorem c7_financial_derivation (om : OccupationMetrics) (cm : CityMetrics)
    (c : ℚ) (k : ℤ)
    (hcol : cm.teleportScores.bind TeleportScores.costOfLiving = some c)
    (hc0 : c ≠ 0) (hk : c = (k : ℚ) / 10) :
    ((calculateFinancialMetrics om cm).salaryMedianUSD : ℚ)
        = getBaseSalary om.name * (c / 5) ∧
    ((calculateFinancialMetrics om cm).salaryLowUSD : ℚ)
        = getBaseSalary om.name * 0.8 * (c / 5) ∧
    ((calculateFinancialMetrics om cm).salaryHighUSD : ℚ)
        = getBaseSalary om.name * 1.5 * (c / 5) ∧
    (calculateFinancialMetrics om cm).savingsPotential = max 0 (10 - c) ∧
    (calculateFinancialMetrics om cm).colIndex = c := by
  have hcol' : jsNumOr (cm.teleportScores.bind TeleportScores.costOfLiving) 5 = c :=
    jsNumOr_of_ne hcol hc0
  obtain ⟨m, hm⟩ := getBaseSalary_dvd om.name
  have hmed : (calculateFinancialMetrics om cm).salaryMedianUSD
      = jsRound (getBaseSalary om.name * (c / 5)) := by
    show jsRound (getBaseSalary om.name *
      (jsNumOr (cm.teleportScores.bind TeleportScores.costOfLiving) 5 / 5)) = _
    rw [hcol']
  have hlow : (calculateFinancialMetrics om cm).salaryLowUSD
      = jsRound (getBaseSalary om.name * 0.8 * (c / 5)) := by
    show jsRound (getBaseSalary om.name * 0.8 *
      (jsNumOr (cm.teleportScores.bind TeleportScores.costOfLiving) 5 / 5)) = _
    rw [hcol']
  have hhigh : (calculateFinancialMetrics om cm).salaryHighUSD
      = jsRound (getBaseSalary om.name * 1.5 * (c / 5)) := by
    show jsRound (getBaseSalary om.name * 1.5 *
      (jsNumOr (cm.teleportScores.bind TeleportScores.costOfLiving) 5 / 5)) = _
    rw [hcol']
  have emed : getBaseSalary om.name * (c / 5) = ((20 * m * k : ℤ) : ℚ) := by
    rw [hm, hk]
    push_cast
    ring
  have elow : getBaseSalary om.name * 0.8 * (c / 5) = ((16 * m * k : ℤ) : ℚ) := by
    rw [hm, hk]
    push_cast
    norm_num
    ring
  have ehigh : getBaseSalary om.name * 1.5 * (c / 5) = ((30 * m * k : ℤ) : ℚ) := by
    rw [hm, hk]
    push_cast
    norm_num
    ring
  refine ⟨?_, ?_, ?_, ?_, hcol'⟩
  · rw [hmed, emed, jsRound_intCast, ← emed]
  · rw [hlow, elow, jsRound_intCast, ← elow]
  · rw [hhigh, ehigh, jsRound_intCast, ← ehigh]
  · show max 0 (10 - jsNumOr (cm.teleportScores.bind TeleportScores.costOfLiving) 5)
        = max 0 (10 - c)
    rw [hcol']

/-- C7 witness: for the fallback city (cost of living `6.0`) and the
sample occupation, the derived salaries satisfy the documented formulas. -/
theorem c7_financial_derivation_witness :
    ((calculateFinancialMetrics occFive (getFallbackCityMetrics "New York" "United States")).salaryMedianUSD : ℚ)
        = getBaseSalary occFive.name * (6 / 5) ∧
    ((calculateFinancialMetrics occFive (getFallbackCityMetrics "New York" "United States")).salaryLowUSD : ℚ)
        = getBaseSalary occFive.name * 0.8 * (6 / 5) ∧
    ((calculateFinancialMetrics occFive (getFallbackCityMetrics "New York" "United States")).salaryHighUSD : ℚ)
        = getBaseSalary occFive.name * 1.5 * (6 / 5) ∧
    (calculateFinancialMetrics occFive (getFallbackCityMetrics "New York" "United States")).savingsPotential
        = max 0 (10 - 6) ∧
    (calculateFinancialMetrics occFive (getFallbackCityMetrics "New York" "United States")).colIndex = 6 :=
  c7_financial_derivation occFive (getFallbackCityMetrics "New York" "United States")
    6 60 (by norm_num [getFallbackCityMetrics]) (by norm_num) (by norm_num)

theorem createNodeInternal_node_depth (ps : InternalParams) (c : Collaborators)
    (e : ℕ) : ((createNodeInternal ps c e).node).depth = ps.depth := by
  unfold createNodeInternal
  cases h : normalizeStep ps.choice c.classifierResult with
  | error msg => simp [PipelineResult.node, placeholderNode]
  | ok nc => simp [PipelineResult.node, completedNode, placeholderNode]

/-- C3: depth bookkeeping of `createNode` — a child's depth is
`parent.depth + 1`, a root's is `0`; a computed depth strictly greater
than 10 is rejected with the `ValidationError` before any node row is
persisted (the outcome carries no node document), while depth exactly 10
passes the check and a node row is persisted. -/
theorem c3_depth_bookkeeping (choice : Choice) (bc : Option BaseContext)
    (sc : ℕ) (collab : Collaborators) (elapsed : ℕ) (p : ParentNode) :
    (∀ n, (createNode (some p) choice bc sc collab elapsed).node = some n →
        n.depth = p.depth + 1) ∧
    (∀ n, (createNode none choice bc sc collab elapsed).node = some n →
        n.depth = 0) ∧
    (createNode none choice bc sc collab elapsed).node.isSome = true ∧
    (p.depth + 1 > 10 →
        createNode (some p) choice bc sc collab elapsed =
          { response := .validationError "Maximum tree depth exceeded"
            node := none
            statsUpdated := false }) ∧
    (p.depth + 1 ≤ 10 →
        (createNode (some p) choice bc sc collab elapsed).node.isSome = true) := by
  refine ⟨?_, ?_, ?_, ?_, ?_⟩
  · intro n hn
    unfold createNode at hn
    by_cases hd : computeDepth (some p) > 10
    · rw [if_pos hd] at hn
      exact absurd hn (by simp)
    · rw [if_neg hd] at hn
      have hdep := createNodeInternal_node_depth
        { parentNode := some p, depth := computeDepth (some p),
          order := computeOrder (some p) sc, choice := choice, baseContext := bc }
        collab elapsed
      cases hcni : createNodeInternal
          { parentNode := some p, depth := computeDepth (some p),
            order := computeOrder (some p) sc, choice := choice, baseContext := bc }
          collab elapsed with
      | ok n' =>
        rw [hcni] at hn hdep
        simp only [Option.some.injEq] at hn
        subst hn
        simpa [PipelineResult.node, computeDepth] using hdep
      | failed n' msg =>
        rw [hcni] at hn hdep
        simp only [Option.some.injEq] at hn
        subst hn
        simpa [PipelineResult.node, computeDepth] using hdep
  · intro n hn
    unfold createNode at hn
    rw [if_neg (by norm_num [computeDepth])] at hn
    have hdep := createNodeInternal_node_depth
      { parentNode := none, depth := computeDepth none,
        order := computeOrder none sc, choice := choice, baseContext := bc }
      collab elapsed
    cases hcni : createNodeInternal
        { parentNode := none, depth := computeDepth none,
          order := computeOrder none sc, choice := choice, baseContext := bc }
        collab elapsed with
    | ok n' =>
      rw [hcni] at hn hdep
      simp only [Option.some.injEq] at hn
      subst hn
      simpa [PipelineResult.node, computeDepth] using hdep
    | failed n' msg =>
      rw [hcni] at hn hdep
      simp only [Option.some.injEq] at hn
      subst hn
      simpa [PipelineResult.node, computeDepth] using hdep
  · unfold createNode
    rw [if_neg (by norm_num [computeDepth])]
    cases hcni : createNodeInternal
        { parentNode := none, depth := computeDepth none,
          order := computeOrder none sc, choice := choice, baseContext := bc }
        collab elapsed with
    | ok n' => simp
    | failed n' msg => simp
  · intro hd
    unfold createNode
    rw [if_pos (by simpa [computeDepth] using hd)]
  · intro hd
    unfold createNode
    rw [if_neg (by simp only [computeDepth]; omega)]
    cases hcni : createNodeInternal
        { parentNode := some p, depth := computeDepth (some p),
          order := computeOrder (some p) sc, choice := choice, baseContext := bc }
        collab elapsed with
    | ok n' => simp
    | failed n' msg => simp

/-- C3 witness: with a parent at depth 9 (node created at depth 10) the
check passes and a node document with depth 10 exists; with a parent at
depth 10 (node at depth 11) the request is rejected with the
`ValidationError` and no node is persisted; a root node has depth 0. -/
theorem c3_depth_bookkeeping_witness :
    (createNode (some { depth := 10, metrics := some parentHappy8 })
        choiceChef none 0 collabAllDown 3) =
      { response := .validationError "Maximum tree depth exceeded"
        node := none
        statsUpdated := false } ∧
    (createNode (some { depth := 9, metrics := some parentHappy8 })
        choiceChef none 0 collabAllDown 3).node.isSome = true ∧
    (createNode none choiceChef none 0 collabAllDown 3).node.isSome = true := by
  refine ⟨?_, ?_, ?_⟩
  · exact (c3_depth_bookkeeping choiceChef none 0 collabAllDown 3
      { depth := 10, metrics := some parentHappy8 }).2.2.2.1 (by norm_num)
  · exact (c3_depth_bookkeeping choiceChef none 0 collabAllDown 3
      { depth := 9, metrics := some parentHappy8 }).2.2.2.2 (by norm_num)
  · exact (c3_depth_bookkeeping choiceChef none 0 collabAllDown 3
      { depth := 9, metrics := some parentHappy8 }).2.2.1

/-- C5 counterexample: a pipeline failure (free-text choice, classifier
down) leaves the node marked `error`, but the session aggregates are NOT
updated by the failing request — `updateSessionStats` (line 64 of the
controller) is skipped because `createNodeInternal` rethrows before it is
reached, contradicting the claim that the errored node is still counted. -/
theorem c5_counterexample :
    (createNode none choiceFreeText none 0 collabAllDown 7).statsUpdated = false ∧
    ((createNode none choiceFreeText none 0 collabAllDown 7).node.map NodeDoc.status)
      = some Status.error := by
  constructor
  · rfl
  · rfl

/-- C5 (amended): when the pipeline hits an unexpected error, the node is
marked `status = error` with the error message and processing time
recorded, and the request answers 500 with `statsUpdated = false`: the
session `totalNodes`/`maxDepth` update is skipped (it runs only after a
successful pipeline), so the errored node is not counted by the failing
request. -/
theorem c5_failure_skips_stats (parentNode : Option ParentNode)
    (choice : Choice) (bc : Option BaseContext) (sc : ℕ)
    (collab : Collaborators) (elapsed : ℕ) (n : NodeDoc) (msg : String)
    (hd : ¬ computeDepth parentNode > 10)
    (hf : createNodeInternal
        { parentNode := parentNode, depth := computeDepth parentNode,
          order := computeOrder parentNode sc, choice := choice,
          baseContext := bc } collab elapsed = .failed n msg) :
    createNode parentNode choice bc sc collab elapsed =
      { response := .serverError, node := some n, statsUpdated := false } ∧
    n.status = .error ∧ n.errorMessage = some msg ∧
    n.processingTime = some elapsed := by
  constructor
  · unfold createNode
    rw [if_neg hd, hf]
  · unfold createNodeInternal at hf
    split at hf
    next m heq =>
      injection hf with h1 h2
      subst h2
      subst h1
      exact ⟨rfl, rfl, rfl⟩
    next nc heq =>
      exact absurd hf (by simp)

/-- C5 witness: the amended statement at the concrete failing input. -/
theorem c5_failure_skips_stats_witness :
    createNode none choiceFreeText none 0 collabAllDown 7 =
      { response := .serverError
        node := some
          { depth := 0, order := 0, choice := choiceFreeText,
            status := .error,
            errorMessage := some "Choice normalization failed",
            metrics := none, narrative := none, coverPhoto := none,
            processingTime := some 7 }
        statsUpdated := false } :=
  (c5_failure_skips_stats none choiceFreeText none 0 collabAllDown 7
    { depth := 0, order := 0, choice := choiceFreeText, status := .error,
      errorMessage := some "Choice normalization failed", metrics := none,
      narrative := none, coverPhoto := none, processingTime := some 7 }
    "Choice normalization failed" (by decide) rfl).1

theorem createNodeInternal_ok (ps : InternalParams) (c : Collaborators) (e : ℕ)
    (hn : needsNormalization ps.choice = false) :
    createNodeInternal ps c e = .ok (completedNode ps c e ps.choice) := by
  have hns : normalizeStep ps.choice c.classifierResult = .ok ps.choice := by
    simp [normalizeStep, hn]
  unfold createNodeInternal
  rw [hns]

/-- C6: with the Teleport city lookup, climate lookup, narrative generator
and image search all failing, a structured choice still yields a
`completed` node built from the documented fallback city metrics, fallback
narrative and fallback cover image — no collaborator outage surfaces as a
hard failure. -/
theorem c6_degraded_completion (parentNode : Option ParentNode)
    (choice : Choice) (bc : Option BaseContext) (sc : ℕ)
    (collab : Collaborators) (elapsed : ℕ)
    (hd : ¬ computeDepth parentNode > 10)
    (hn : needsNormalization choice = false)
    (hcity : collab.cityResult = none) (hclim : collab.climateResult = none)
    (hnarr : collab.narrativeResult = none) (himg : collab.imageResult = none) :
    (createNode parentNode choice bc sc collab elapsed).response = .created ∧
    (createNode parentNode choice bc sc collab elapsed).node =
      some (completedNode
        { parentNode := parentNode, depth := computeDepth parentNode,
          order := computeOrder parentNode sc, choice := choice,
          baseContext := bc } collab elapsed choice) ∧
    (completedNode
        { parentNode := parentNode, depth := computeDepth parentNode,
          order := computeOrder parentNode sc, choice := choice,
          baseContext := bc } collab elapsed choice).status = .completed ∧
    (resolvedMetrics
        { parentNode := parentNode, depth := computeDepth parentNode,
          order := computeOrder parentNode sc, choice := choice,
          baseContext := bc } collab choice).city =
      getFallbackCityMetrics (resolveCityName choice parentNode bc)
        (resolveCountryName choice parentNode bc) ∧
    (completedNode
        { parentNode := parentNode, depth := computeDepth parentNode,
          order := computeOrder parentNode sc, choice := choice,
          baseContext := bc } collab elapsed choice).narrative =
      some (getFallbackNarrative choice (resolveCityName choice parentNode bc)
        (resolveOccupationName choice parentNode) parentNode) ∧
    (completedNode
        { parentNode := parentNode, depth := computeDepth parentNode,
          order := computeOrder parentNode sc, choice := choice,
          baseContext := bc } collab elapsed choice).coverPhoto =
      some (getFallbackCoverImage (resolveCityName choice parentNode bc)
        (resolveOccupationName choice parentNode)) ∧
    (completedNode
        { parentNode := parentNode, depth := computeDepth parentNode,
          order := computeOrder parentNode sc, choice := choice,
          baseContext := bc } collab elapsed choice).processingTime =
      some elapsed := by
  have hni := createNodeInternal_ok
    { parentNode := parentNode, depth := computeDepth parentNode,
      order := computeOrder parentNode sc, choice := choice,
      baseContext := bc } collab elapsed hn
  refine ⟨?_, ?_, rfl, ?_, ?_, ?_, rfl⟩
  · unfold createNode
    rw [if_neg hd, hni]
  · unfold createNode
    rw [if_neg hd, hni]
  · simp only [resolvedMetrics, resolvedCity]
    rw [hcity, hclim]
    rfl
  · simp only [completedNode]
    rw [hnarr]
    rfl
  · simp only [completedNode]
    rw [himg]
    rfl

/-- C6 witness: the degraded run at a concrete structured choice. -/
theorem c6_degraded_completion_witness :
    (createNode none choiceChef none 0 collabAllDown 12).response = .created ∧
    (createNode none choiceChef none 0 collabAllDown 12).node =
      some (completedNode
        { parentNode := none, depth := computeDepth none,
          order := computeOrder none 0, choice := choiceChef,
          baseContext := none } collabAllDown 12 choiceChef) ∧
    (completedNode
        { parentNode := none, depth := computeDepth none,
          order := computeOrder none 0, choice := choiceChef,
          baseContext := none } collabAllDown 12 choiceChef).status = .completed ∧
    (resolvedMetrics
        { parentNode := none, depth := computeDepth none,
          order := computeOrder none 0, choice := choiceChef,
          baseContext := none } collabAllDown choiceChef).city =
      getFallbackCityMetrics (resolveCityName choiceChef none none)
        (resolveCountryName choiceChef none none) ∧
    (completedNode
        { parentNode := none, depth := computeDepth none,
          order := computeOrder none 0, choice := choiceChef,
          baseContext := none } collabAllDown 12 choiceChef).narrative =
      some (getFallbackNarrative choiceChef (resolveCityName choiceChef none none)
        (resolveOccupationName choiceChef none) none) ∧
    (completedNode
        { parentNode := none, depth := computeDepth none,
          order := computeOrder none 0, choice := choiceChef,
          baseContext := none } collabAllDown 12 choiceChef).coverPhoto =
      some (getFallbackCoverImage (resolveCityName choiceChef none none)
        (resolveOccupationName choiceChef none)) ∧
    (completedNode
        { parentNode := none, depth := computeDepth none,
          order := computeOrder none 0, choice := choiceChef,
          baseContext := none } collabAllDown 12 choiceChef).processingTime =
      some 12 :=
  c6_degraded_completion none choiceChef none 0 collabAllDown 12
    (by decide) (by decide) rfl rfl rfl rfl

theorem jsStrOr_of_some {x : Option String} {s : String} (hx : x = some s)
    (hs : s ≠ "") (d : String) : jsStrOr x d = s := by
  subst hx
  simp [jsStrOr, strTruthy, bne_iff_ne, hs]

theorem jsStrOr_of_falsy {x : Option String} (hx : strTruthy x = false)
    (d : String) : jsStrOr x d = d := by
  simp [jsStrOr, hx]

/-- C4 (amended): location (city and country) resolves through the full
four-level cascade — choice value, then the parent node's stored value,
then the session base context, then the defaults `"New York"` /
`"United States"`; occupation resolves through a three-level cascade —
choice value, then the parent node's stored value, then
`"Software Developer"` — and never consults the session base context.
A child whose choice omits `locationChange` inherits the parent's city. -/
theorem c4_inheritance_cascade (nc : Choice) (parentNode : Option ParentNode)
    (bc : Option BaseContext) :
    (∀ s, nc.locationChange.bind LocationChange.city = some s → s ≠ "" →
        resolveCityName nc parentNode bc = s) ∧
    (∀ s, strTruthy (nc.locationChange.bind LocationChange.city) = false →
        (parentNode.bind fun p => p.metrics.bind fun m =>
          m.city.bind StoredCity.name) = some s → s ≠ "" →
        resolveCityName nc parentNode bc = s) ∧
    (∀ s, strTruthy (nc.locationChange.bind LocationChange.city) = false →
        strTruthy (parentNode.bind fun p => p.metrics.bind fun m =>
          m.city.bind StoredCity.name) = false →
        bc.bind BaseContext.currentCity = some s → s ≠ "" →
        resolveCityName nc parentNode bc = s) ∧
    (strTruthy (nc.locationChange.bind LocationChange.city) = false →
        strTruthy (parentNode.bind fun p => p.metrics.bind fun m =>
          m.city.bind StoredCity.name) = false →
        strTruthy (bc.bind BaseContext.currentCity) = false →
        resolveCityName nc parentNode bc = "New York") ∧
    (∀ s, nc.locationChange.bind LocationChange.country = some s → s ≠ "" →
        resolveCountryName nc parentNode bc = s) ∧
    (∀ s, strTruthy (nc.locationChange.bind LocationChange.country) = false →
        (parentNode.bind fun p => p.metrics.bind fun m =>
          m.city.bind StoredCity.country) = some s → s ≠ "" →
        resolveCountryName nc parentNode bc = s) ∧
    (∀ s, strTruthy (nc.locationChange.bind LocationChange.country) = false →
        strTruthy (parentNode.bind fun p => p.metrics.bind fun m =>
          m.city.bind StoredCity.country) = false →
        bc.bind BaseContext.country = some s → s ≠ "" →
        resolveCountryName nc parentNode bc = s) ∧
    (strTruthy (nc.locationChange.bind LocationChange.country) = false →
        strTruthy (parentNode.bind fun p => p.metrics.bind fun m =>
          m.city.bind StoredCity.country) = false →
        strTruthy (bc.bind BaseContext.country) = false →
        resolveCountryName nc parentNode bc = "United States") ∧
    (∀ s, nc.careerChange = some s → s ≠ "" →
        resolveOccupationName nc parentNode = s) ∧
    (∀ s, strTruthy nc.careerChange = false →
        (parentNode.bind fun p => p.metrics.bind fun m =>
          m.occupation.bind StoredOccupation.name) = some s → s ≠ "" →
        resolveOccupationName nc parentNode = s) ∧
    (strTruthy nc.careerChange = false →
        strTruthy (parentNode.bind fun p => p.metrics.bind fun m =>
          m.occupation.bind StoredOccupation.name) = false →
        resolveOccupationName nc parentNode = "Software Developer") := by
  refine ⟨?_, ?_, ?_, ?_, ?_, ?_, ?_, ?_, ?_, ?_, ?_⟩
  · intro s h1 h2
    unfold resolveCityName
    exact jsStrOr_of_some h1 h2 _
  · intro s h1 h2 h3
    unfold resolveCityName
    rw [jsStrOr_of_falsy h1, jsStrOr_of_some h2 h3]
  · intro s h1 h2 h3 h4
    unfold resolveCityName
    rw [jsStrOr_of_falsy h1, jsStrOr_of_falsy h2, jsStrOr_of_some h3 h4]
  · intro h1 h2 h3
    unfold resolveCityName
    rw [jsStrOr_of_falsy h1, jsStrOr_of_falsy h2, jsStrOr_of_falsy h3]
  · intro s h1 h2
    unfold resolveCountryName
    exact jsStrOr_of_some h1 h2 _
  · intro s h1 h2 h3
    unfold resolveCountryName
    rw [jsStrOr_of_falsy h1, jsStrOr_of_some h2 h3]
  · intro s h1 h2 h3 h4
    unfold resolveCountryName
    rw [jsStrOr_of_falsy h1, jsStrOr_of_falsy h2, jsStrOr_of_some h3 h4]
  · intro h1 h2 h3
    unfold resolveCountryName
    rw [jsStrOr_of_falsy h1, jsStrOr_of_falsy h2, jsStrOr_of_falsy h3]
  · intro s h1 h2
    unfold resolveOccupationName
    exact jsStrOr_of_some h1 h2 _
  · intro s h1 h2 h3
    unfold resolveOccupationName
    rw [jsStrOr_of_falsy h1, jsStrOr_of_some h2 h3]
  · intro h1 h2
    unfold resolveOccupationName
    rw [jsStrOr_of_falsy h1, jsStrOr_of_falsy h2]

/-- C4 counterexample: with no parent, a choice without a career change,
and a session base context whose current career is `"Chef"`, the code
resolves the occupation to the default `"Software Developer"`, while the
claimed cascade (which consults the base context before the default) would
resolve `"Chef"` — the occupation resolver never reads the base context. -/
theorem c4_counterexample :
    baseContextChef.currentCareer = some "Chef" ∧
    resolveOccupationName choiceMinimal none = "Software Developer" ∧
    specResolveOccupationName choiceMinimal none (some baseContextChef) = "Chef" ∧
    ("Software Developer" : String) ≠ "Chef" := by
  refine ⟨rfl, rfl, ?_, by decide⟩
  decide

/-- C4 witness: a child whose choice omits `locationChange`, created under
a parent whose stored city is Paris, resolves the city to `"Paris"`; its
career-change choice `"chef"` resolves the occupation to `"chef"`. -/
theorem c4_inheritance_cascade_witness :
    resolveCityName choiceChef (some parentParis) (some baseContextChef) = "Paris" ∧
    resolveOccupationName choiceChef (some parentParis) = "chef" := by
  have h := c4_inheritance_cascade choiceChef (some parentParis) (some baseContextChef)
  exact ⟨h.2.1 "Paris" rfl rfl (by decide), h.2.2.2.2.2.2.2.2.1 "chef" rfl (by decide)⟩

theorem needsNormalization_iff (c : Choice) :
    needsNormalization c = true ↔
      ∃ s, (c.careerChange = some s ∨ c.educationChange = some s ∨
            c.lifestyleChange = some s ∨ c.personalityChange = some s ∨
            c.relationshipChange = some s) ∧ s.data.contains ' ' = true := by
  have hmatch : ∀ x : Option String,
      (match x with | some s => s.data.contains ' ' | none => false) = true ↔
        ∃ s, x = some s ∧ s.data.contains ' ' = true := by
    intro x
    cases x <;> simp
  unfold needsNormalization
  simp only [Bool.or_eq_true, hmatch]
  constructor
  · rintro ((((⟨s, h1, h2⟩ | ⟨s, h1, h2⟩) | ⟨s, h1, h2⟩) | ⟨s, h1, h2⟩) | ⟨s, h1, h2⟩)
    · exact ⟨s, Or.inl h1, h2⟩
    · exact ⟨s, Or.inr (Or.inl h1), h2⟩
    · exact ⟨s, Or.inr (Or.inr (Or.inl h1)), h2⟩
    · exact ⟨s, Or.inr (Or.inr (Or.inr (Or.inl h1))), h2⟩
    · exact ⟨s, Or.inr (Or.inr (Or.inr (Or.inr h1))), h2⟩
  · rintro ⟨s, h1 | h1 | h1 | h1 | h1, h2⟩
    · exact Or.inl (Or.inl (Or.inl (Or.inl ⟨s, h1, h2⟩)))
    · exact Or.inl (Or.inl (Or.inl (Or.inr ⟨s, h1, h2⟩)))
    · exact Or.inl (Or.inl (Or.inr ⟨s, h1, h2⟩))
    · exact Or.inl (Or.inr ⟨s, h1, h2⟩)
    · exact Or.inr ⟨s, h1, h2⟩

/-- C10: normalization is triggered exactly when some top-level string
field of the choice (career/education/lifestyle/personality/relationship)
contains a space — spaces inside `locationChange` never trigger it; the
extracted classifier text covers only career, location, education and
lifestyle, so a choice populated only in personality/relationship yields
the empty text; the parsed classifier result never carries personality or
relationship, and when the classifier answers all-null the normalized
choice has no populated dimension at all. -/
theorem c10_normalization_scope :
    (∀ c : Choice, needsNormalization c = true ↔
      ∃ s, (c.careerChange = some s ∨ c.educationChange = some s ∨
            c.lifestyleChange = some s ∨ c.personalityChange = some s ∨
            c.relationshipChange = some s) ∧ s.data.contains ' ' = true) ∧
    (∀ l : LocationChange, needsNormalization
        { careerChange := none, locationChange := some l,
          educationChange := none, lifestyleChange := none,
          personalityChange := none, relationshipChange := none } = false) ∧
    (∀ c : Choice, strTruthy c.careerChange = false →
        strTruthy (c.locationChange.bind LocationChange.city) = false →
        strTruthy c.educationChange = false →
        strTruthy c.lifestyleChange = false →
        extractChoiceText c = "") ∧
    (∀ p : ParsedChoice, (parseChoiceResponse p).personalityChange = none ∧
        (parseChoiceResponse p).relationshipChange = none) ∧
    (∀ p : ParsedChoice, strTruthy p.careerChange = false →
        strTruthy (p.locationChange.bind LocationChange.city) = false →
        strTruthy (p.locationChange.bind LocationChange.country) = false →
        strTruthy p.educationChange = false →
        strTruthy p.lifestyleChange = false →
        hasPopulatedDimension (parseChoiceResponse p) = false) := by
  refine ⟨needsNormalization_iff, fun l => rfl, ?_, fun p => ⟨rfl, rfl⟩, ?_⟩
  · intro c h1 h2 h3 h4
    unfold extractChoiceText
    rw [h1, h2, h3, h4]
    rfl
  · intro p h1 h2 h3 h4 h5
    simp only [hasPopulatedDimension, parseChoiceResponse, h1, h2, h3, h4, h5,
      if_false, Bool.false_or, Bool.or_false]
    simp [strTruthy, h2, h3]

/-- C10 witness: a choice populated only in personality/relationship
triggers normalization, extracts the empty classifier text, and an
all-null classifier response normalizes to a choice with no populated
dimension (in particular without personality/relationship). -/
theorem c10_normalization_scope_witness :
    needsNormalization choicePersonal = true ∧
    extractChoiceText choicePersonal = "" ∧
    (parseChoiceResponse parsedEmpty).personalityChange = none ∧
    (parseChoiceResponse parsedEmpty).relationshipChange = none ∧
    hasPopulatedDimension (parseChoiceResponse parsedEmpty) = false := by
  obtain ⟨h1, _, h3, h4, h5⟩ := c10_normalization_scope
  refine ⟨(h1 choicePersonal).mpr
      ⟨"more confident", Or.inr (Or.inr (Or.inr (Or.inl rfl))), by decide⟩,
    h3 choicePersonal rfl rfl rfl rfl,
    (h4 parsedEmpty).1, (h4 parsedEmpty).2,
    h5 parsedEmpty rfl rfl rfl rfl rfl⟩
